import Mathlib

/-!
Verification of the Atmolite view/request state machine.

The embedding follows `src/types.ts` (data model) and `src/unnamed/part_000`
(the App component: `handleSearch`, `handleReset`, the error classifiers
`isDailyLimitError` / `isRpmError`, and the render selection).  The two
remote collaborators (`getCityWeather`, `generateIsometricCity` from
`./services/geminiService`) are not part of the sources; their outcomes are
modelled as environment events delivered to the in-flight call.
-/

set_option autoImplicit false

namespace Atmolite

/-- Mirrors `WeatherData` from `src/types.ts`. -/
structure WeatherData where
  temperature : String
  condition : String
  date : String
  cityNativeName : String
  cityName : String
  iconDescription : String
  isDay : Bool
  sources : Option (List String)
deriving DecidableEq

/-- Mirrors the `AppState` enum from `src/types.ts`. -/
inductive AppState where
  | IDLE
  | FETCHING_WEATHER
  | GENERATING_IMAGE
  | DISPLAY
  | ERROR
deriving DecidableEq

/-- The React state hooks of the App component (`part_000`, lines 24-28):
`cityInput`, `appState`, `weatherData`, `generatedImage`, `errorMsg`.
The onboarding / consent / privacy flags are independent modal state that
never touches these five fields, so they are omitted. -/
structure AppModel where
  cityInput : String
  appState : AppState
  weatherData : Option WeatherData
  generatedImage : String
  errorMsg : String
deriving DecidableEq

/-- Decides whether `a` is a prefix of `b`, on character lists. -/
def isPrefixL : List Char → List Char → Bool
  | [], _ => true
  | _ :: _, [] => false
  | a :: as, b :: bs => a = b && isPrefixL as bs

/-- Decides whether `sub` occurs as a contiguous run inside `l`. -/
def containsL (sub : List Char) : List Char → Bool
  | [] => isPrefixL sub []
  | l@(_ :: rest) => isPrefixL sub l || containsL sub rest

/-- JavaScript `s.includes(sub)`: substring containment. -/
def strContains (s sub : String) : Bool := containsL sub.data s.data

/-- JavaScript `String.prototype.trim`: strip leading and trailing
whitespace. -/
def strTrim (s : String) : String :=
  ⟨((s.data.dropWhile Char.isWhitespace).reverse.dropWhile Char.isWhitespace).reverse⟩

/-- JavaScript truthiness of a string (`""` and an absent message are
falsy). -/
def jsTruthy (s : String) : Bool := !(s == "")

/-- The `catch` block of `handleSearch` (`part_000`, lines 81-93): maps the
failure message of a rejected call to the stored `errorMsg`.
Branch order is that of the source:
1. `err.message === "MISSING_API_KEY"` (exact equality) gives the fixed
   configuration message;
2. a truthy `err.message` that includes `403` or `Permission Denied`
   gives the fixed
   access-denied message;
3. otherwise `err.message || fallback`. -/
def classifyError (msg : String) : String :=
  if msg == "MISSING_API_KEY" then
    "API Key missing! Please check configuration."
  else if jsTruthy msg && (strContains msg "403" || strContains msg "Permission Denied") then
    "Access Denied. Please check API Key."
  else if jsTruthy msg then
    msg
  else
    "Unable to retrieve city data. Please try again."

/-- Mirrors `isDailyLimitError` (`part_000`, line 109). -/
def isDailyLimitError (errorMsg : String) : Bool :=
  strContains errorMsg "Daily free limit reached"

/-- Mirrors `isRpmError` (`part_000`, line 110). -/
def isRpmError (errorMsg : String) : Bool :=
  strContains errorMsg "Too many requests"

/-- Mirrors `handleReset` (`part_000`, lines 97-102): returns to `IDLE` and clears
input, weather record and image reference.  `errorMsg` is not touched by
the source, so it is not touched here. -/
def handleReset (s : AppModel) : AppModel :=
  { s with
    appState := AppState.IDLE
    cityInput := ""
    weatherData := none
    generatedImage := "" }

/-- Observable calls to the two remote collaborators. -/
inductive Action where
  | fetchWeather (city : String)
  | generateImage (d : WeatherData)
deriving DecidableEq

/-- Events driving the component: the three user events the rendered screens
can emit (`submit` from the entry form, `reset` from the reset buttons,
`setInput` from the text input), and the resolution or rejection of the two
awaited calls in `handleSearch`. -/
inductive Event where
  | setInput (t : String)
  | submit
  | reset
  | weatherOk (d : WeatherData)
  | weatherErr (msg : String)
  | imageOk (url : String)
  | imageErr (msg : String)
deriving DecidableEq

/-- One step of the component: the state update and the collaborator calls
it issues.

User events are dispatched exactly where the source renders their handler:
the entry form with its input and submit button only under
`appState === AppState.IDLE` (`part_000`, line 126), the reset buttons only
on the two error screens (lines 152, 160) and on the display screen, which
itself requires a stored weather record (lines 168, 180).

`submit` runs `handleSearch` (lines 64-80): a blank trimmed input returns
early; otherwise `errorMsg` is cleared, the state moves to
`FETCHING_WEATHER` and the weather lookup is issued with `cityInput`.
`weatherOk` resumes at line 73: the record is stored, the state moves to
`GENERATING_IMAGE` and image generation is issued with that record.
`imageOk` resumes at line 78: the image reference is stored and the state
moves to `DISPLAY`.  A rejection of the awaited call lands in the `catch`
block: `classifyError` fixes the message and the state moves to `ERROR`.
An environment event is only deliverable to the matching in-flight call. -/
def app_step (s : AppModel) : Event → AppModel × List Action
  | Event.setInput t =>
      if s.appState = AppState.IDLE then ({ s with cityInput := t }, []) else (s, [])
  | Event.submit =>
      if s.appState = AppState.IDLE then
        if strTrim s.cityInput = "" then (s, [])
        else ({ s with errorMsg := "", appState := AppState.FETCHING_WEATHER },
              [Action.fetchWeather s.cityInput])
      else (s, [])
  | Event.reset =>
      if s.appState = AppState.ERROR ∨
         (s.appState = AppState.DISPLAY ∧ s.weatherData.isSome) then
        (handleReset s, [])
      else (s, [])
  | Event.weatherOk d =>
      if s.appState = AppState.FETCHING_WEATHER then
        ({ s with weatherData := some d, appState := AppState.GENERATING_IMAGE },
         [Action.generateImage d])
      else (s, [])
  | Event.weatherErr m =>
      if s.appState = AppState.FETCHING_WEATHER then
        ({ s with errorMsg := classifyError m, appState := AppState.ERROR }, [])
      else (s, [])
  | Event.imageOk url =>
      if s.appState = AppState.GENERATING_IMAGE then
        ({ s with generatedImage := url, appState := AppState.DISPLAY }, [])
      else (s, [])
  | Event.imageErr m =>
      if s.appState = AppState.GENERATING_IMAGE then
        ({ s with errorMsg := classifyError m, appState := AppState.ERROR }, [])
      else (s, [])

/-- The five mutually exclusive screens of the render (`part_000`,
lines 126-189).  `genericError` carries the rate-limit flag that selects
the amber styling, the `Too Fast!` title and the `Wait a moment` button
over the red styling, `Oops!` and `Try Again` (lines 154-165).  `blank`
covers `DISPLAY` with no stored record, where line 168 renders nothing. -/
inductive Screen where
  | entryForm (cityInput : String)
  | loader (status : String)
  | tired
  | genericError (rpm : Bool) (message : String)
  | displayScene (image : String) (data : WeatherData)
  | blank
deriving DecidableEq

/-- Loader caption (`part_000`, line 149). -/
def loaderStatus (s : AppModel) : String :=
  if s.appState = AppState.FETCHING_WEATHER then "Consulting the skies..."
  else
    "Painting " ++
      (match s.weatherData with
        | some d => if jsTruthy d.cityNativeName then d.cityNativeName else s.cityInput
        | none => s.cityInput) ++ "..."

/-- Screen selection of the render (`part_000`): entry form under `IDLE`
(line 126), loader under the two fetching states (line 148), the tired
mascot under `ERROR` with a daily-limit message (line 152), the generic
error box under `ERROR` otherwise (line 154), the display scene under
`DISPLAY` with a stored record (line 168). -/
def render (s : AppModel) : Screen :=
  match s.appState with
  | AppState.IDLE => Screen.entryForm s.cityInput
  | AppState.FETCHING_WEATHER => Screen.loader (loaderStatus s)
  | AppState.GENERATING_IMAGE => Screen.loader (loaderStatus s)
  | AppState.ERROR =>
      if isDailyLimitError s.errorMsg then Screen.tired
      else Screen.genericError (isRpmError s.errorMsg) s.errorMsg
  | AppState.DISPLAY =>
      match s.weatherData with
      | some d => Screen.displayScene s.generatedImage d
      | none => Screen.blank

/-- Reset-button label on the generic error screen (`part_000`,
line 163). -/
def errorButtonLabel (rpm : Bool) : String :=
  if rpm then "Wait a moment" else "Try Again"

/-- The initial hook state (`part_000`, lines 24-28). -/
def initState : AppModel :=
  { cityInput := ""
    appState := AppState.IDLE
    weatherData := none
    generatedImage := ""
    errorMsg := "" }

/-- Modelled from the spec: the collaborators `getCityWeather` and
`generateIsometricCity` of `./services/geminiService` are not among the
sources.  Per the spec a successful generation yields "an opaque string
(URL or data reference) identifying the rendered scene", i.e. a non-empty
image reference; a successful lookup yields a structured weather record.
`EnvOk` restricts environment events to such well-formed responses. -/
def EnvOk : Event → Prop
  | Event.imageOk url => url ≠ ""
  | _ => True

/-- States reachable from the initial hook state under well-formed
environment responses. -/
inductive Reach : AppModel → Prop
  | base : Reach initState
  | next {s : AppModel} {e : Event} : Reach s → EnvOk e → Reach (app_step s e).1

/-- A sample weather record, for concrete instantiations. -/
def sampleData : WeatherData :=
  { temperature := "18°C"
    condition := "Clear"
    date := "Saturday, 11 October"
    cityNativeName := "京都"
    cityName := "Kyoto"
    iconDescription := "sunny"
    isDay := true
    sources := none }

/-- A concrete state with the weather lookup in flight. -/
def fetchingState : AppModel :=
  { cityInput := "Kyoto"
    appState := AppState.FETCHING_WEATHER
    weatherData := none
    generatedImage := ""
    errorMsg := "" }

/-- The concrete state reached from the initial state by typing `Kyoto`,
submitting, and both calls succeeding. -/
def displayedState : AppModel :=
  (app_step (app_step (app_step (app_step initState
    (Event.setInput "Kyoto")).1 Event.submit).1
    (Event.weatherOk sampleData)).1 (Event.imageOk "data:image/png")).1

/-- The state invariant backing the `DISPLAY` screen: while generation is
in flight a weather record is already stored, and in `DISPLAY` both the
record and a non-empty image reference are stored. -/
def Inv (s : AppModel) : Prop :=
  (s.appState = AppState.GENERATING_IMAGE → s.weatherData.isSome = true) ∧
  (s.appState = AppState.DISPLAY →
    s.weatherData.isSome = true ∧ s.generatedImage ≠ "")

/- ======================================================================
   Helper lemmas
   ====================================================================== -/

/-- Two strings differ when a pattern occurs in one but not the other. -/
theorem ne_of_contains_diff {a b p : String}
    (h1 : strContains a p = true) (h2 : strContains b p = false) : a ≠ b := by
  intro h
  rw [h, h2] at h1
  exact Bool.noConfusion h1

/-- The access-denied branch of `classifyError`. -/
theorem classifyError_access {m : String}
    (hne : m ≠ "MISSING_API_KEY") (hm : m ≠ "")
    (h : strContains m "403" = true ∨ strContains m "Permission Denied" = true) :
    classifyError m = "Access Denied. Please check API Key." := by
  rcases h with h | h <;>
    simp [classifyError, jsTruthy, hne, hm, h]

/-- The raw-message fallback branch of `classifyError`. -/
theorem classifyError_fallback {m : String}
    (hne : m ≠ "MISSING_API_KEY") (hm : m ≠ "")
    (h4 : strContains m "403" = false)
    (hp : strContains m "Permission Denied" = false) :
    classifyError m = m := by
  simp [classifyError, jsTruthy, hne, hm, h4, hp]

/- ======================================================================
   Claims
   ====================================================================== -/

/-- C1: from every state other than `IDLE`, a `submit` is ignored — the
state is unchanged and no lookup call is issued.  The guard is the render:
the entry form carrying the submit handler is mounted only under
`appState === AppState.IDLE`. -/
theorem submit_ignored_unless_idle (s : AppModel)
    (h : s.appState ≠ AppState.IDLE) :
    app_step s Event.submit = (s, []) := by
  simp [app_step, h]

/-- Witness for C1 at a concrete in-flight state. -/
theorem submit_ignored_unless_idle_witness :
    fetchingState.appState ≠ AppState.IDLE ∧
      app_step fetchingState Event.submit = (fetchingState, []) :=
  ⟨by decide, submit_ignored_unless_idle fetchingState (by decide)⟩

/-- C4: a `submit` with an empty or whitespace-only city input is a
no-op: the full state (screen state, weather record, image reference,
error message) is unchanged and no lookup call is issued. -/
theorem blank_input_submit_noop (s : AppModel)
    (h : strTrim s.cityInput = "") :
    app_step s Event.submit = (s, []) := by
  cases hs : s.appState <;> simp [app_step, hs, h]

/-- Witness for C4 at the idle state with a whitespace-only input. -/
theorem blank_input_submit_noop_witness :
    strTrim (AppModel.cityInput { initState with cityInput := "   " }) = "" ∧
      app_step { initState with cityInput := "   " } Event.submit =
        ({ initState with cityInput := "   " }, []) :=
  ⟨by decide, blank_input_submit_noop { initState with cityInput := "   " } (by decide)⟩

/-- C5: whatever the state, `handleReset` returns to `IDLE` with the city
input, the weather record and the image reference all cleared. -/
theorem reset_clears_to_idle (s : AppModel) :
    (handleReset s).appState = AppState.IDLE ∧
      (handleReset s).cityInput = "" ∧
      (handleReset s).weatherData = none ∧
      (handleReset s).generatedImage = "" := by
  simp [handleReset]

/-- One step preserves the invariant under well-formed environment
responses. -/
theorem step_inv {t : AppModel} {e : Event} (ih : Inv t) (he : EnvOk e) :
    Inv (app_step t e).1 := by
  obtain ⟨ih1, ih2⟩ := ih
  cases e with
  | setInput v =>
      by_cases hi : t.appState = AppState.IDLE
      · simp [app_step, hi, Inv]
      · simp only [app_step, if_neg hi]
        exact ⟨ih1, ih2⟩
  | submit =>
      by_cases hi : t.appState = AppState.IDLE
      · by_cases hb : strTrim t.cityInput = ""
        · simp only [app_step, if_pos hi, if_pos hb]
          exact ⟨ih1, ih2⟩
        · simp [app_step, hi, hb, Inv]
      · simp only [app_step, if_neg hi]
        exact ⟨ih1, ih2⟩
  | reset =>
      by_cases hi : t.appState = AppState.ERROR ∨
          (t.appState = AppState.DISPLAY ∧ t.weatherData.isSome)
      · simp [app_step, hi, Inv, handleReset]
      · simp only [app_step, if_neg hi]
        exact ⟨ih1, ih2⟩
  | weatherOk d =>
      by_cases hi : t.appState = AppState.FETCHING_WEATHER
      · simp [app_step, hi, Inv]
      · simp only [app_step, if_neg hi]
        exact ⟨ih1, ih2⟩
  | weatherErr m =>
      by_cases hi : t.appState = AppState.FETCHING_WEATHER
      · simp [app_step, hi, Inv]
      · simp only [app_step, if_neg hi]
        exact ⟨ih1, ih2⟩
  | imageOk url =>
      by_cases hi : t.appState = AppState.GENERATING_IMAGE
      · have hw : t.weatherData.isSome = true := ih1 hi
        have hu : url ≠ "" := he
        simp [app_step, hi, Inv, hw, hu]
      · simp only [app_step, if_neg hi]
        exact ⟨ih1, ih2⟩
  | imageErr m =>
      by_cases hi : t.appState = AppState.GENERATING_IMAGE
      · simp [app_step, hi, Inv]
      · simp only [app_step, if_neg hi]
        exact ⟨ih1, ih2⟩

/-- Every reachable state satisfies the invariant. -/
theorem reach_inv {s : AppModel} (h : Reach s) : Inv s := by
  induction h with
  | base => simp [Inv, initState]
  | next hr he ih => exact step_inv ih he

/-- C2 counterexample: the failure message `403 Daily free limit reached`
contains `Daily free limit reached`, yet the resulting error state renders
the generic access-denied screen, not the tired screen, because the `403`
branch of the classifier fires first and replaces the message. -/
theorem daily_limit_claim_cex :
    strContains "403 Daily free limit reached" "Daily free limit reached" = true ∧
      (app_step fetchingState
        (Event.weatherErr "403 Daily free limit reached")).1.appState = AppState.ERROR ∧
      render (app_step fetchingState
        (Event.weatherErr "403 Daily free limit reached")).1 ≠ Screen.tired := by
  decide

/-- C2 (amended): a lookup failure whose message contains
`Daily free limit reached` and contains neither `403` nor
`Permission Denied` lands in `ERROR` rendered as the tired screen. -/
theorem daily_limit_routes_to_tired (s : AppModel) (m : String)
    (hs : s.appState = AppState.FETCHING_WEATHER)
    (hd : strContains m "Daily free limit reached" = true)
    (h4 : strContains m "403" = false)
    (hp : strContains m "Permission Denied" = false) :
    (app_step s (Event.weatherErr m)).1.appState = AppState.ERROR ∧
      render (app_step s (Event.weatherErr m)).1 = Screen.tired := by
  have hne : m ≠ "MISSING_API_KEY" := ne_of_contains_diff hd (by decide)
  have hm : m ≠ "" := ne_of_contains_diff hd (by decide)
  have hc : classifyError m = m := classifyError_fallback hne hm h4 hp
  simp [app_step, hs, render, hc, isDailyLimitError, hd]

/-- Witness for the amended C2 at a concrete quota message. -/
theorem daily_limit_routes_to_tired_witness :
    (fetchingState.appState = AppState.FETCHING_WEATHER ∧
      strContains "Daily free limit reached" "Daily free limit reached" = true ∧
      strContains "Daily free limit reached" "403" = false ∧
      strContains "Daily free limit reached" "Permission Denied" = false) ∧
    ((app_step fetchingState
        (Event.weatherErr "Daily free limit reached")).1.appState = AppState.ERROR ∧
      render (app_step fetchingState
        (Event.weatherErr "Daily free limit reached")).1 = Screen.tired) :=
  ⟨by decide,
   daily_limit_routes_to_tired fetchingState "Daily free limit reached"
     (by decide) (by decide) (by decide) (by decide)⟩

/-- C3 counterexample: `Error: MISSING_API_KEY` contains the
missing-credential marker, yet the classifier keeps the raw message — the
source compares with `===`, not with `includes`. -/
theorem missing_key_marker_cex :
    strContains "Error: MISSING_API_KEY" "MISSING_API_KEY" = true ∧
      (app_step fetchingState
        (Event.weatherErr "Error: MISSING_API_KEY")).1.errorMsg ≠
        "API Key missing! Please check configuration." ∧
      (app_step fetchingState
        (Event.weatherErr "Error: MISSING_API_KEY")).1.errorMsg =
        "Error: MISSING_API_KEY" := by
  decide

/-- C3 (amended): a lookup failure whose message is exactly
`MISSING_API_KEY` is classified to the fixed configuration message and the
state moves to `ERROR`. -/
theorem missing_key_exact_fixed_message (s : AppModel)
    (hs : s.appState = AppState.FETCHING_WEATHER) :
    (app_step s (Event.weatherErr "MISSING_API_KEY")).1.errorMsg =
        "API Key missing! Please check configuration." ∧
      (app_step s (Event.weatherErr "MISSING_API_KEY")).1.appState =
        AppState.ERROR := by
  have hc : classifyError "MISSING_API_KEY" =
      "API Key missing! Please check configuration." := by decide
  simp [app_step, hs, hc]

/-- Witness for the amended C3. -/
theorem missing_key_exact_fixed_message_witness :
    fetchingState.appState = AppState.FETCHING_WEATHER ∧
      ((app_step fetchingState
          (Event.weatherErr "MISSING_API_KEY")).1.errorMsg =
          "API Key missing! Please check configuration." ∧
        (app_step fetchingState
          (Event.weatherErr "MISSING_API_KEY")).1.appState = AppState.ERROR) :=
  ⟨by decide, missing_key_exact_fixed_message fetchingState (by decide)⟩

/-- C7 counterexample: two messages containing `Too many requests` that do
not get the rate-limit treatment — one also contains `403` and is replaced
by the access-denied message (default red styling, `Try Again` button), and
one also contains `Daily free limit reached` and renders the tired screen. -/
theorem rate_limit_claim_cex :
    (strContains "Error 403: Too many requests" "Too many requests" = true ∧
      render (app_step fetchingState
        (Event.weatherErr "Error 403: Too many requests")).1 =
        Screen.genericError false "Access Denied. Please check API Key." ∧
      errorButtonLabel false = "Try Again") ∧
    (strContains "Too many requests: Daily free limit reached"
        "Too many requests" = true ∧
      render (app_step fetchingState
        (Event.weatherErr "Too many requests: Daily free limit reached")).1 =
        Screen.tired) := by
  decide

/-- C7 (amended): a lookup failure whose message contains
`Too many requests` and contains none of `403`, `Permission Denied`,
`Daily free limit reached` lands in `ERROR` rendered as the generic error
screen with the rate-limit styling and the `Wait a moment` button, and the
tired screen is not shown. -/
theorem rate_limit_styling (s : AppModel) (m : String)
    (hs : s.appState = AppState.FETCHING_WEATHER)
    (hr : strContains m "Too many requests" = true)
    (h4 : strContains m "403" = false)
    (hp : strContains m "Permission Denied" = false)
    (hd : strContains m "Daily free limit reached" = false) :
    (app_step s (Event.weatherErr m)).1.appState = AppState.ERROR ∧
      render (app_step s (Event.weatherErr m)).1 = Screen.genericError true m ∧
      errorButtonLabel true = "Wait a moment" ∧
      render (app_step s (Event.weatherErr m)).1 ≠ Screen.tired := by
  have hne : m ≠ "MISSING_API_KEY" := ne_of_contains_diff hr (by decide)
  have hm : m ≠ "" := ne_of_contains_diff hr (by decide)
  have hc : classifyError m = m := classifyError_fallback hne hm h4 hp
  simp [app_step, hs, render, hc, isDailyLimitError, isRpmError, hd, hr,
    errorButtonLabel]

/-- Witness for the amended C7 at a concrete rate-limit message. -/
theorem rate_limit_styling_witness :
    (fetchingState.appState = AppState.FETCHING_WEATHER ∧
      strContains "Too many requests" "Too many requests" = true ∧
      strContains "Too many requests" "403" = false ∧
      strContains "Too many requests" "Permission Denied" = false ∧
      strContains "Too many requests" "Daily free limit reached" = false) ∧
    ((app_step fetchingState
        (Event.weatherErr "Too many requests")).1.appState = AppState.ERROR ∧
      render (app_step fetchingState
        (Event.weatherErr "Too many requests")).1 =
        Screen.genericError true "Too many requests" ∧
      errorButtonLabel true = "Wait a moment" ∧
      render (app_step fetchingState
        (Event.weatherErr "Too many requests")).1 ≠ Screen.tired) :=
  ⟨by decide,
   rate_limit_styling fetchingState "Too many requests"
     (by decide) (by decide) (by decide) (by decide) (by decide)⟩

/-- C10: classification priority — the exact missing-credential equality is
checked first, then the `403` / `Permission Denied` substring branch, which
replaces the message with the fixed access-denied string; hence a failure
message containing both `403` and `Daily free limit reached` is routed to
the generic access-denied screen and never to the tired screen. -/
theorem error_priority_access_denied (s : AppModel) (m : String)
    (hs : s.appState = AppState.FETCHING_WEATHER)
    (h4 : strContains m "403" = true)
    (hd : strContains m "Daily free limit reached" = true) :
    classifyError "MISSING_API_KEY" =
        "API Key missing! Please check configuration." ∧
      (app_step s (Event.weatherErr m)).1.errorMsg =
        "Access Denied. Please check API Key." ∧
      (app_step s (Event.weatherErr m)).1.appState = AppState.ERROR ∧
      render (app_step s (Event.weatherErr m)).1 =
        Screen.genericError false "Access Denied. Please check API Key." ∧
      render (app_step s (Event.weatherErr m)).1 ≠ Screen.tired := by
  have hne : m ≠ "MISSING_API_KEY" := ne_of_contains_diff hd (by decide)
  have hm : m ≠ "" := ne_of_contains_diff h4 (by decide)
  have hc : classifyError m = "Access Denied. Please check API Key." :=
    classifyError_access hne hm (Or.inl h4)
  have ht : isDailyLimitError "Access Denied. Please check API Key." = false := by
    decide
  have hrp : isRpmError "Access Denied. Please check API Key." = false := by
    decide
  refine ⟨by decide, ?_⟩
  simp [app_step, hs, render, hc, ht, hrp]

/-- Witness for C10 at a concrete mixed message. -/
theorem error_priority_access_denied_witness :
    (fetchingState.appState = AppState.FETCHING_WEATHER ∧
      strContains "403 Daily free limit reached" "403" = true ∧
      strContains "403 Daily free limit reached"
        "Daily free limit reached" = true) ∧
    (classifyError "MISSING_API_KEY" =
        "API Key missing! Please check configuration." ∧
      (app_step fetchingState
        (Event.weatherErr "403 Daily free limit reached")).1.errorMsg =
        "Access Denied. Please check API Key." ∧
      (app_step fetchingState
        (Event.weatherErr "403 Daily free limit reached")).1.appState =
        AppState.ERROR ∧
      render (app_step fetchingState
        (Event.weatherErr "403 Daily free limit reached")).1 =
        Screen.genericError false "Access Denied. Please check API Key." ∧
      render (app_step fetchingState
        (Event.weatherErr "403 Daily free limit reached")).1 ≠ Screen.tired) :=
  ⟨by decide,
   error_priority_access_denied fetchingState "403 Daily free limit reached"
     (by decide) (by decide) (by decide)⟩

/-- C6: in every reachable state showing `DISPLAY` a weather record is
stored and the image reference is non-empty; and from any idle state with a
non-blank input, a successful lookup followed by a successful generation
ends in `DISPLAY` with the record and the image reference populated. -/
theorem display_invariant (t s : AppModel) (d : WeatherData) (url : String)
    (hr : Reach t) (ht : t.appState = AppState.DISPLAY)
    (hs : s.appState = AppState.IDLE) (hin : strTrim s.cityInput ≠ "")
    (hurl : url ≠ "") :
    ((∃ d2, t.weatherData = some d2) ∧ t.generatedImage ≠ "") ∧
      ((app_step (app_step (app_step s Event.submit).1
          (Event.weatherOk d)).1 (Event.imageOk url)).1.appState =
            AppState.DISPLAY ∧
        (app_step (app_step (app_step s Event.submit).1
          (Event.weatherOk d)).1 (Event.imageOk url)).1.weatherData = some d ∧
        (app_step (app_step (app_step s Event.submit).1
          (Event.weatherOk d)).1 (Event.imageOk url)).1.generatedImage = url ∧
        (app_step (app_step (app_step s Event.submit).1
          (Event.weatherOk d)).1 (Event.imageOk url)).1.generatedImage ≠ "") := by
  constructor
  · have hinv := reach_inv hr
    have h2 := hinv.2 ht
    exact ⟨Option.isSome_iff_exists.mp h2.1, h2.2⟩
  · simp [app_step, hs, hin, hurl]

/-- Witness for C6: the state reached by typing `Kyoto`, submitting, and
both calls succeeding. -/
theorem display_invariant_witness :
    (Reach displayedState ∧ displayedState.appState = AppState.DISPLAY ∧
      ({ initState with cityInput := "Kyoto" } : AppModel).appState =
        AppState.IDLE ∧
      strTrim ({ initState with cityInput := "Kyoto" } : AppModel).cityInput ≠ "" ∧
      "data:image/png" ≠ "") ∧
    (((∃ d2, displayedState.weatherData = some d2) ∧
        displayedState.generatedImage ≠ "") ∧
      ((app_step (app_step (app_step { initState with cityInput := "Kyoto" }
          Event.submit).1 (Event.weatherOk sampleData)).1
          (Event.imageOk "data:image/png")).1.appState = AppState.DISPLAY ∧
        (app_step (app_step (app_step { initState with cityInput := "Kyoto" }
          Event.submit).1 (Event.weatherOk sampleData)).1
          (Event.imageOk "data:image/png")).1.weatherData = some sampleData ∧
        (app_step (app_step (app_step { initState with cityInput := "Kyoto" }
          Event.submit).1 (Event.weatherOk sampleData)).1
          (Event.imageOk "data:image/png")).1.generatedImage =
            "data:image/png" ∧
        (app_step (app_step (app_step { initState with cityInput := "Kyoto" }
          Event.submit).1 (Event.weatherOk sampleData)).1
          (Event.imageOk "data:image/png")).1.generatedImage ≠ "")) := by
  have hurl : ("data:image/png" : String) ≠ "" := by decide
  have hreach : Reach displayedState :=
    Reach.next (Reach.next (Reach.next (Reach.next Reach.base True.intro)
      True.intro) True.intro) hurl
  refine ⟨⟨hreach, by decide, by decide, by decide, by decide⟩, ?_⟩
  exact display_invariant displayedState { initState with cityInput := "Kyoto" }
    sampleData "data:image/png" hreach (by decide) (by decide) (by decide)
    (by decide)

/-- C8: an image-generation call is only ever issued by the resumption of a
successful weather lookup; a lookup failure lands in `ERROR` issuing no
call; and the success path passes through `FETCHING_WEATHER`, then
`GENERATING_IMAGE`, then `DISPLAY`. -/
theorem generation_strictly_after_lookup (sa sb sc : AppModel) (e : Event)
    (d : WeatherData) (m url : String)
    (ha : Action.generateImage d ∈ (app_step sa e).2)
    (hb : sb.appState = AppState.FETCHING_WEATHER)
    (hc1 : sc.appState = AppState.IDLE)
    (hc2 : strTrim sc.cityInput ≠ "") :
    (e = Event.weatherOk d ∧ sa.appState = AppState.FETCHING_WEATHER) ∧
      ((app_step sb (Event.weatherErr m)).1.appState = AppState.ERROR ∧
        (app_step sb (Event.weatherErr m)).2 = []) ∧
      ((app_step sc Event.submit).1.appState = AppState.FETCHING_WEATHER ∧
        (app_step (app_step sc Event.submit).1
          (Event.weatherOk d)).1.appState = AppState.GENERATING_IMAGE ∧
        (app_step (app_step (app_step sc Event.submit).1
          (Event.weatherOk d)).1 (Event.imageOk url)).1.appState =
            AppState.DISPLAY) := by
  refine ⟨?_, by simp [app_step, hb], by simp [app_step, hc1, hc2]⟩
  cases e with
  | setInput v =>
      by_cases hi : sa.appState = AppState.IDLE <;> simp [app_step, hi] at ha
  | submit =>
      by_cases hi : sa.appState = AppState.IDLE
      · by_cases hbk : strTrim sa.cityInput = "" <;> simp [app_step, hi, hbk] at ha
      · simp [app_step, hi] at ha
  | reset =>
      by_cases hi : sa.appState = AppState.ERROR ∨
          (sa.appState = AppState.DISPLAY ∧ sa.weatherData.isSome) <;>
        simp [app_step, hi] at ha
  | weatherOk d2 =>
      by_cases hi : sa.appState = AppState.FETCHING_WEATHER
      · simp [app_step, hi] at ha
        subst ha
        exact ⟨rfl, hi⟩
      · simp [app_step, hi] at ha
  | weatherErr m2 =>
      by_cases hi : sa.appState = AppState.FETCHING_WEATHER <;>
        simp [app_step, hi] at ha
  | imageOk u =>
      by_cases hi : sa.appState = AppState.GENERATING_IMAGE <;>
        simp [app_step, hi] at ha
  | imageErr m2 =>
      by_cases hi : sa.appState = AppState.GENERATING_IMAGE <;>
        simp [app_step, hi] at ha

/-- Witness for C8 at concrete states and a concrete success response. -/
theorem generation_strictly_after_lookup_witness :
    (Action.generateImage sampleData ∈
        (app_step fetchingState (Event.weatherOk sampleData)).2 ∧
      fetchingState.appState = AppState.FETCHING_WEATHER ∧
      ({ initState with cityInput := "Kyoto" } : AppModel).appState =
        AppState.IDLE ∧
      strTrim ({ initState with cityInput := "Kyoto" } : AppModel).cityInput ≠ "") ∧
    ((Event.weatherOk sampleData = Event.weatherOk sampleData ∧
        fetchingState.appState = AppState.FETCHING_WEATHER) ∧
      ((app_step fetchingState (Event.weatherErr "boom")).1.appState =
          AppState.ERROR ∧
        (app_step fetchingState (Event.weatherErr "boom")).2 = []) ∧
      ((app_step { initState with cityInput := "Kyoto" }
          Event.submit).1.appState = AppState.FETCHING_WEATHER ∧
        (app_step (app_step { initState with cityInput := "Kyoto" }
          Event.submit).1 (Event.weatherOk sampleData)).1.appState =
            AppState.GENERATING_IMAGE ∧
        (app_step (app_step (app_step { initState with cityInput := "Kyoto" }
          Event.submit).1 (Event.weatherOk sampleData)).1
          (Event.imageOk "data:image/png")).1.appState = AppState.DISPLAY)) :=
  ⟨⟨by decide, by decide, by decide, by decide⟩,
   generation_strictly_after_lookup fetchingState fetchingState
     { initState with cityInput := "Kyoto" } (Event.weatherOk sampleData)
     sampleData "boom" "data:image/png" (by decide) (by decide) (by decide)
     (by decide)⟩

/-- C9: after a successful lookup stores the record, a generation failure
moves to `ERROR` with the record still stored; every further event other
than `reset` leaves the record stored, and `reset` clears it. -/
theorem record_survives_generation_failure (s : AppModel) (d : WeatherData)
    (m : String) (e : Event)
    (hs : s.appState = AppState.FETCHING_WEATHER) (he : e ≠ Event.reset) :
    ((app_step (app_step s (Event.weatherOk d)).1
        (Event.imageErr m)).1.appState = AppState.ERROR ∧
      (app_step (app_step s (Event.weatherOk d)).1
        (Event.imageErr m)).1.weatherData = some d) ∧
      (app_step (app_step (app_step s (Event.weatherOk d)).1
        (Event.imageErr m)).1 e).1.weatherData = some d ∧
      (app_step (app_step (app_step s (Event.weatherOk d)).1
        (Event.imageErr m)).1 Event.reset).1.weatherData = none := by
  have h2 : (app_step (app_step s (Event.weatherOk d)).1
      (Event.imageErr m)).1 =
      { s with weatherData := some d, appState := AppState.ERROR,
               errorMsg := classifyError m } := by
    simp [app_step, hs]
  rw [h2]
  refine ⟨by simp, ?_, by simp [app_step, handleReset]⟩
  cases e with
  | setInput v => simp [app_step]
  | submit => simp [app_step]
  | reset => exact absurd rfl he
  | weatherOk d2 => simp [app_step]
  | weatherErr m2 => simp [app_step]
  | imageOk u => simp [app_step]
  | imageErr m2 => simp [app_step]

/-- Witness for C9 at a concrete in-flight state, record, failure message
and a non-reset follow-up event. -/
theorem record_survives_generation_failure_witness :
    (fetchingState.appState = AppState.FETCHING_WEATHER ∧
      Event.submit ≠ Event.reset) ∧
    (((app_step (app_step fetchingState (Event.weatherOk sampleData)).1
        (Event.imageErr "boom")).1.appState = AppState.ERROR ∧
      (app_step (app_step fetchingState (Event.weatherOk sampleData)).1
        (Event.imageErr "boom")).1.weatherData = some sampleData) ∧
      (app_step (app_step (app_step fetchingState
        (Event.weatherOk sampleData)).1 (Event.imageErr "boom")).1
        Event.submit).1.weatherData = some sampleData ∧
      (app_step (app_step (app_step fetchingState
        (Event.weatherOk sampleData)).1 (Event.imageErr "boom")).1
        Event.reset).1.weatherData = none) :=
  ⟨⟨by decide, by decide⟩,
   record_survives_generation_failure fetchingState sampleData "boom"
     Event.submit (by decide) (by decide)⟩

end Atmolite
